import Mathlib

/- Verification of the email-to-pdf batch script (src/main.py).

Shallow embedding: Python strings are lists of characters; the external
pdfkit rendering engine and the mailbox move operation are oracles passed
in as functions; the per-run mailbox effects (flag, move) are recorded in
an explicit state.  Fallible code returns `Except` or an explicit result
type. -/

/-- Python strings, modelled as lists of characters (code points). -/
abbrev Str := List Char

/-- Python `needle in hay` substring containment. -/
def containsSub : Str → Str → Bool
  | [], needle => needle.isEmpty
  | c :: t, needle => needle.isPrefixOf (c :: t) || containsSub t needle

/-- Python `str.strip()`: drop whitespace from both ends. -/
def pyStrip (s : Str) : Str :=
  ((s.dropWhile Char.isWhitespace).reverse.dropWhile Char.isWhitespace).reverse

/-- `PDF_CONTENT_ERRORS` from src/main.py: substrings of renderer error
messages that mark a recoverable content problem. -/
def PDF_CONTENT_ERRORS : List Str :=
  ["ContentNotFoundError".data,
   "ContentOperationNotPermittedError".data,
   "UnknownContentError".data,
   "RemoteHostClosedError".data,
   "ConnectionRefusedError".data,
   "Server refused a stream".data]

/-- `BAD_CHARACTERS` from src/main.py: the filename denylist. -/
def BAD_CHARACTERS : List Char := ['/', '*', ':', '<', '>', '|', '"', '’', '–']

/-- `DEFAULT_IMAP_TARGET_FOLDER` from src/main.py. -/
def DEFAULT_IMAP_TARGET_FOLDER : Str := "Processed".data

/-- A Python exception raised by the rendering engine: either an `OSError`
(the kind `html_to_pdf` catches) or any other exception kind. -/
inductive PyError where
  | osError (msg : Str)
  | otherError (msg : Str)
deriving DecidableEq

/-- A `ValueError` raised by configuration handling (`get_imap_filter`). -/
inductive ConfigError where
  | valueError (msg : Str)
deriving DecidableEq

/-- An `EmailProcessingError` raised by the batch processor. -/
inductive BatchError where
  | emailProcessingError (msg : Str)
deriving DecidableEq

/-- One Python `str.replace(c, "_")` step for a single character `c`. -/
def replaceChar (s : Str) (c : Char) : Str :=
  s.map (fun x => if x = c then '_' else x)

/-- `sanitize_filename` from src/main.py: replace each denylisted character
with an underscore, one `str.replace` pass per character. -/
def sanitize_filename (s : Str) : Str :=
  BAD_CHARACTERS.foldl replaceChar s

/-- The per-character action of `sanitize_filename` (for stating theorems). -/
def sanitizeChar (c : Char) : Char :=
  if c ∈ BAD_CHARACTERS then '_' else c

/-- The IMAP flag kinds used by the script (`MailMessageFlags`). -/
inductive MailFlag where
  | answered
  | flagged
  | deleted
  | seen
deriving DecidableEq

/-- `MailMessageFlags.all` restricted to the kinds this program produces. -/
def MailMessageFlags_all : List MailFlag :=
  [.answered, .flagged, .deleted, .seen]

/-- `get_mail_message_flag` from src/main.py: the `MAIL_MESSAGE_FLAG`
environment variable (`none` when unset) upper-cased and looked up in the
flag map, defaulting to `(SEEN, true)`. -/
def get_mail_message_flag (env : Option Str) : MailFlag × Bool :=
  let flag_str := (env.getD "SEEN".data).map Char.toUpper
  if flag_str = "ANSWERED".data then (.answered, true)
  else if flag_str = "FLAGGED".data then (.flagged, true)
  else if flag_str = "UNFLAGGED".data then (.flagged, false)
  else if flag_str = "DELETED".data then (.deleted, true)
  else if flag_str = "SEEN".data then (.seen, true)
  else (.seen, true)

/-- The search criteria handed to the mail library: either the raw override
string, or one of the derived `AND(...)` predicates. -/
inductive FilterCriteria where
  | override (s : Str)
  | and_seen (b : Bool)
  | and_answered (b : Bool)
  | and_flagged (b : Bool)
  | and_all
deriving DecidableEq

/-- `get_imap_filter` from src/main.py.  The `IMAP_FILTER` environment
variable is `none` when unset; Python truthiness treats both absence and
the empty string as "no override". -/
def get_imap_filter (envFilter : Option Str) (mail_message_flag : MailFlag × Bool) :
    Except ConfigError FilterCriteria :=
  if envFilter.getD [] ≠ [] then .ok (.override (envFilter.getD []))
  else
    match mail_message_flag with
    | (.seen, state) => .ok (.and_seen (!state))
    | (.answered, state) => .ok (.and_answered (!state))
    | (.flagged, state) => .ok (.and_flagged (!state))
    | (.deleted, true) => .ok .and_all
    | (.deleted, false) =>
        .error (.valueError ("Could not determine IMAP filter from mail message flag. You must specify the filter manually.".data))

/-- The flag state of a mailbox message, as seen by the search. -/
structure MsgFlags where
  seen : Bool
  answered : Bool
  flagged : Bool
deriving DecidableEq

/-- Modelled from the spec: the selection meaning of the derived IMAP search
predicates (the external mail library's `AND(seen=...)` etc. criteria,
spec section 4.2 table).  A raw override string is opaque to this model and
is given no meaning here (arbitrarily `true`); theorems never mention it. -/
def filterMatches (fc : FilterCriteria) (fl : MsgFlags) : Bool :=
  match fc with
  | .override _ => true
  | .and_seen b => fl.seen == b
  | .and_answered b => fl.answered == b
  | .and_flagged b => fl.flagged == b
  | .and_all => true

/-- The result of one `html_to_pdf` call: a written PDF path, a raised
recoverable `EmailProcessingError`, or a re-raised engine exception. -/
inductive RenderResult where
  | ok (path : Str)
  | emailProcessingError (msg : Str)
  | raised (e : PyError)
deriving DecidableEq

/-- The output path computed by `html_to_pdf`:
`OUTPUT_DIRECTORY / f"{sanitized_filename[:50]}.pdf"`. -/
def output_path (output_directory : Str) (filename : Str) : Str :=
  output_directory ++ "/".data ++ (sanitize_filename filename).take 50 ++ ".pdf".data

/-- `html_to_pdf` from src/main.py.  The pdfkit engine is an oracle from the
content string to an optional raised exception (`none` = success).  An
`OSError` whose message contains a `PDF_CONTENT_ERRORS` substring is wrapped
as a recoverable `EmailProcessingError`; any other `OSError` and any
non-`OSError` exception is re-raised unchanged. -/
def html_to_pdf (output_directory : Str) (engine : Str → Option PyError)
    (html_content : Str) (filename : Str) : RenderResult :=
  match engine html_content with
  | none => .ok (output_path output_directory filename)
  | some (.osError m) =>
      if PDF_CONTENT_ERRORS.any (fun err => containsSub m err) then
        .emailProcessingError ("Error generating PDF for '".data ++ filename
          ++ "'.  Likely content issue: ".data ++ m)
      else .raised (.osError m)
  | some (.otherError m) => .raised (.otherError m)

/-- A fetched mail message, as the script reads it: subject, HTML body,
plain-text body, number of attachments, server uid. -/
structure Msg where
  uid : Str
  subject : Str
  html : Str
  text : Str
  attachments : Nat
deriving DecidableEq

/-- The mailbox effects of one run: flag operations and moves, in order. -/
structure MailState where
  flagged : List (Str × MailFlag × Bool)
  moved : List (Str × Str)
deriving DecidableEq

/-- The UTF-8 charset meta tag prepended to non-empty HTML bodies. -/
def META_TAG : Str :=
  "<meta http-equiv=\"Content-type\" content=\"text/html; charset=utf-8\"/>".data

/-- The render payload computed in `process_email`: the meta tag plus the
HTML body when the stripped HTML body is non-empty, else the text body. -/
def pdf_content (msg : Msg) : Str :=
  if pyStrip msg.html ≠ [] then META_TAG ++ msg.html else msg.text

/-- The outcome of the per-message loop body: continue with the next
message, or abort the batch with an error. -/
inductive StepResult where
  | next (st : MailState)
  | abort (st : MailState) (e : BatchError)
deriving DecidableEq

/-- One iteration of the per-message loop of `process_email` from
src/main.py: skip messages with attachments; render; on a recoverable
`EmailProcessingError` continue unchanged; on any other raised exception
abort; on success flag the message, then move it (a failed move aborts).
`moveOk` is the oracle for whether `mailbox.move` succeeds. -/
def process_one (output_directory : Str) (mail_msg_flag : MailFlag × Bool)
    (target_folder : Str) (engine : Str → Option PyError) (moveOk : Msg → Bool)
    (msg : Msg) (st : MailState) : StepResult :=
  if msg.attachments ≠ 0 then .next st
  else
    match html_to_pdf output_directory engine (pdf_content msg) msg.subject with
    | .ok _ =>
        let st1 :=
          if mail_msg_flag.1 ∈ MailMessageFlags_all then
            { st with flagged := st.flagged ++ [(msg.uid, mail_msg_flag.1, mail_msg_flag.2)] }
          else st
        if moveOk msg then
          .next { st1 with moved := st1.moved ++ [(msg.uid, target_folder)] }
        else
          .abort st1 (.emailProcessingError ("Failed to move email '".data ++ msg.subject
            ++ "' to folder '".data ++ target_folder ++ "': ...".data))
    | .emailProcessingError _ => .next st
    | .raised _ =>
        .abort st (.emailProcessingError "Unhandled exception during PDF creation".data)

/-- The per-message loop of `process_email`, over the fetched messages. -/
def process_email_loop (output_directory : Str) (mail_msg_flag : MailFlag × Bool)
    (target_folder : Str) (engine : Str → Option PyError) (moveOk : Msg → Bool) :
    List Msg → MailState → MailState × Option BatchError
  | [], st => (st, none)
  | msg :: rest, st =>
      match process_one output_directory mail_msg_flag target_folder engine moveOk msg st with
      | .next st2 => process_email_loop output_directory mail_msg_flag target_folder engine moveOk rest st2
      | .abort st2 e => (st2, some e)

/-- The outer `except Exception` of `process_email`: any error escaping the
loop is re-wrapped as an `EmailProcessingError` about IMAP processing. -/
def wrapOuter : BatchError → BatchError
  | .emailProcessingError m =>
      .emailProcessingError ("An error occurred during IMAP processing: ".data ++ m)

/-- `process_email` from src/main.py, over an already-fetched message list:
the per-message loop plus the outer exception wrapper.  Returns the final
mailbox state and the raised error, if any. -/
def process_email (output_directory : Str) (mail_msg_flag : MailFlag × Bool)
    (target_folder : Str) (engine : Str → Option PyError) (moveOk : Msg → Bool)
    (msgs : List Msg) (st : MailState) : MailState × Option BatchError :=
  let r := process_email_loop output_directory mail_msg_flag target_folder engine moveOk msgs st
  (r.1, r.2.map wrapOuter)

/-- A message whose render fails recoverably: no attachments and the
renderer raises a wrapped content `EmailProcessingError`. -/
def step_recoverable (output_directory : Str) (engine : Str → Option PyError)
    (m : Msg) : Bool :=
  m.attachments == 0 &&
    match html_to_pdf output_directory engine (pdf_content m) m.subject with
    | .emailProcessingError _ => true
    | _ => false

/-- A message on which the loop body aborts fatally: no attachments, and
either the renderer re-raises an exception or the render succeeds and the
move fails. -/
def step_fatal (output_directory : Str) (engine : Str → Option PyError)
    (moveOk : Msg → Bool) (m : Msg) : Bool :=
  m.attachments == 0 &&
    match html_to_pdf output_directory engine (pdf_content m) m.subject with
    | .ok _ => !moveOk m
    | .emailProcessingError _ => false
    | .raised _ => true

/-- Fixture: a concrete output directory. -/
def egOutDir : Str := "/tmp".data

/-- Fixture: a concrete flag directive. -/
def egFlagDir : MailFlag × Bool := (.seen, true)

/-- Fixture: a concrete target folder. -/
def egTarget : Str := DEFAULT_IMAP_TARGET_FOLDER

/-- Fixture: the empty mailbox-effect state. -/
def egState : MailState := ⟨[], []⟩

/-- Fixture: a message whose render fails with a content error. -/
def egMsgRec : Msg := ⟨"1".data, "a".data, [], "T1".data, 0⟩

/-- Fixture: a message whose render fails with a non-OSError exception. -/
def egMsgFat : Msg := ⟨"2".data, "b".data, [], "T2".data, 0⟩

/-- Fixture: a message with one attachment. -/
def egMsgAtt : Msg := ⟨"3".data, "c".data, [], "T3".data, 1⟩

/-- Fixture: a message with a non-empty HTML body. -/
def egMsgHtml : Msg := ⟨"4".data, "d".data, "<p>hi</p>".data, "T4".data, 0⟩

/-- Fixture: an engine oracle failing on the two failing fixtures. -/
def egEngine : Str → Option PyError := fun content =>
  if content = "T1".data then some (.osError "wkhtmltopdf: ContentNotFoundError at page".data)
  else if content = "T2".data then some (.otherError "boom".data)
  else none

/-- Fixture: a move oracle that always succeeds. -/
def egMoveOk : Msg → Bool := fun _ => true

theorem underscore_not_bad : '_' ∉ BAD_CHARACTERS := by decide

theorem foldl_replaceChar_eq_map (bs : List Char) (hb : '_' ∉ bs) :
    ∀ s : Str, bs.foldl replaceChar s = s.map (fun c => if c ∈ bs then '_' else c) := by
  induction bs with
  | nil => intro s; simp
  | cons b t ih =>
      intro s
      have ht : '_' ∉ t := fun h => hb (List.mem_cons_of_mem _ h)
      rw [List.foldl_cons, ih ht (replaceChar s b)]
      unfold replaceChar
      rw [List.map_map]
      congr 1
      funext c
      by_cases hc : c = b
      · subst hc
        simp [ht]
      · simp [hc, List.mem_cons]

theorem sanitize_eq_map (s : Str) : sanitize_filename s = s.map sanitizeChar := by
  have h := foldl_replaceChar_eq_map BAD_CHARACTERS underscore_not_bad s
  simpa [sanitize_filename, sanitizeChar] using h

theorem sanitizeChar_not_bad (c : Char) : sanitizeChar c ∉ BAD_CHARACTERS := by
  unfold sanitizeChar
  by_cases h : c ∈ BAD_CHARACTERS
  · simp [h, underscore_not_bad]
  · simp [h]

theorem sanitizeChar_idem (c : Char) : sanitizeChar (sanitizeChar c) = sanitizeChar c := by
  unfold sanitizeChar
  by_cases h : c ∈ BAD_CHARACTERS
  · simp [h, underscore_not_bad]
  · simp [h]

/-- C7: `sanitize_filename` replaces exactly the denylisted characters with
underscores and leaves every other character unchanged (it is the
character-wise map of that action), preserves length (no truncation), and
its output contains no denylisted character. -/
theorem sanitize_denylist (s : Str) :
    sanitize_filename s = s.map (fun c => if c ∈ BAD_CHARACTERS then '_' else c)
      ∧ (sanitize_filename s).length = s.length
      ∧ (sanitize_filename s).all (fun c => decide (c ∉ BAD_CHARACTERS)) = true := by
  refine ⟨by simpa [sanitizeChar] using sanitize_eq_map s, ?_, ?_⟩
  · rw [sanitize_eq_map]; simp
  · rw [sanitize_eq_map, List.all_map]
    apply List.all_eq_true.mpr
    intro c _
    simpa using sanitizeChar_not_bad c

/-- C8: `sanitize_filename` is idempotent. -/
theorem sanitize_idempotent (s : Str) :
    sanitize_filename (sanitize_filename s) = sanitize_filename s := by
  rw [sanitize_eq_map (sanitize_filename s), sanitize_eq_map s, List.map_map]
  congr 1
  funext c
  exact sanitizeChar_idem c

theorem mailflag_mem_all (f : MailFlag) : f ∈ MailMessageFlags_all := by
  cases f <;> decide

theorem derive_ok (envFilter : Option Str) (mf : MailFlag × Bool)
    (h : mf ≠ (MailFlag.deleted, false)) :
    ∃ fc, get_imap_filter envFilter mf = .ok fc := by
  obtain ⟨f, b⟩ := mf
  by_cases he : envFilter.getD [] = []
  · cases f <;> cases b <;> simp_all [get_imap_filter, he]
  · exact ⟨.override (envFilter.getD []), by simp [get_imap_filter, he]⟩

/-- C3 (amended): a non-empty override is returned unchanged (an
empty-string override is treated as absent); with no effective override the
derived predicate is exactly the spec table — (Seen, b) gives the
seen-state opposite to b, likewise Answered and Flagged, (Deleted, true)
matches all, (Deleted, false) raises ConfigurationError — and every
directive other than (Deleted, false) returns without raising. -/
theorem filter_derivation (envFilter : Option Str) (mf : MailFlag × Bool) (s : Str)
    (hs : s ≠ []) :
    get_imap_filter (some s) mf = .ok (.override s)
      ∧ (envFilter.getD [] = [] →
          (∀ b, get_imap_filter envFilter (.seen, b) = .ok (.and_seen (!b)))
            ∧ (∀ b, get_imap_filter envFilter (.answered, b) = .ok (.and_answered (!b)))
            ∧ (∀ b, get_imap_filter envFilter (.flagged, b) = .ok (.and_flagged (!b)))
            ∧ get_imap_filter envFilter (.deleted, true) = .ok .and_all
            ∧ (∃ m, get_imap_filter envFilter (.deleted, false) = .error (.valueError m)))
      ∧ (mf ≠ (MailFlag.deleted, false) → ∃ fc, get_imap_filter envFilter mf = .ok fc)
      ∧ (∀ fl : MsgFlags, filterMatches (.and_seen false) fl = !fl.seen)
      ∧ (∀ fl : MsgFlags, filterMatches (.and_seen true) fl = fl.seen)
      ∧ (∀ fl : MsgFlags, filterMatches (.and_answered false) fl = !fl.answered)
      ∧ (∀ fl : MsgFlags, filterMatches (.and_answered true) fl = fl.answered)
      ∧ (∀ fl : MsgFlags, filterMatches (.and_flagged false) fl = !fl.flagged)
      ∧ (∀ fl : MsgFlags, filterMatches (.and_flagged true) fl = fl.flagged)
      ∧ (∀ fl : MsgFlags, filterMatches .and_all fl = true) := by
  refine ⟨by simp [get_imap_filter, hs], ?_, derive_ok envFilter mf, ?_, ?_, ?_, ?_, ?_, ?_, ?_⟩
  · intro he
    refine ⟨fun b => by simp [get_imap_filter, he], fun b => by simp [get_imap_filter, he],
      fun b => by simp [get_imap_filter, he], by simp [get_imap_filter, he],
      ⟨"Could not determine IMAP filter from mail message flag. You must specify the filter manually.".data,
        by simp [get_imap_filter, he]⟩⟩
  · intro fl; obtain ⟨s0, a0, f0⟩ := fl; cases s0 <;> rfl
  · intro fl; obtain ⟨s0, a0, f0⟩ := fl; cases s0 <;> rfl
  · intro fl; obtain ⟨s0, a0, f0⟩ := fl; cases a0 <;> rfl
  · intro fl; obtain ⟨s0, a0, f0⟩ := fl; cases a0 <;> rfl
  · intro fl; obtain ⟨s0, a0, f0⟩ := fl; cases f0 <;> rfl
  · intro fl; obtain ⟨s0, a0, f0⟩ := fl; cases f0 <;> rfl
  · intro fl; rfl

/-- C3 as frozen is false on the code: with the override given as the empty
string and directive (Seen, true), `get_imap_filter` ignores the override
and derives a predicate instead of returning the override unchanged. -/
theorem filter_override_counterexample :
    get_imap_filter (some []) (MailFlag.seen, true) = .ok (.and_seen false)
      ∧ (Except.ok (FilterCriteria.and_seen false) : Except ConfigError FilterCriteria)
          ≠ .ok (.override []) := by
  refine ⟨by rfl, fun h => ?_⟩
  injection h with h2
  exact FilterCriteria.noConfusion h2

/-- Witness for `filter_derivation` at concrete inputs. -/
theorem filter_derivation_witness :
    get_imap_filter (some ['x']) (MailFlag.deleted, true) = .ok (.override ['x'])
      ∧ (∃ fc, get_imap_filter none (MailFlag.deleted, true) = .ok fc) := by
  have h := filter_derivation none (MailFlag.deleted, true) ['x'] (by decide)
  exact ⟨h.1, h.2.2.1 (by decide)⟩

/-- C10: the flag reader returns one of exactly five (kind, state) pairs,
maps every unrecognized input to (Seen, true) and never produces
(Deleted, false); composed with the filter deriver it never raises, for
every possible pair of configuration inputs. -/
theorem flag_reader_total_safety (envFlag envFilter : Option Str) :
    get_mail_message_flag envFlag ∈
        ([(.answered, true), (.flagged, true), (.flagged, false),
          (.deleted, true), (.seen, true)] : List (MailFlag × Bool))
      ∧ get_mail_message_flag envFlag ≠ (MailFlag.deleted, false)
      ∧ ((envFlag.getD "SEEN".data).map Char.toUpper ∉
            ["ANSWERED".data, "FLAGGED".data, "UNFLAGGED".data,
             "DELETED".data, "SEEN".data] →
          get_mail_message_flag envFlag = (MailFlag.seen, true))
      ∧ ∃ fc, get_imap_filter envFilter (get_mail_message_flag envFlag) = .ok fc := by
  simp only [get_mail_message_flag]
  split_ifs with h1 h2 h3 h4 h5
  · exact ⟨by decide, by decide,
      fun hcon => by rw [h1] at hcon; exact absurd (by decide) hcon,
      derive_ok envFilter _ (by decide)⟩
  · exact ⟨by decide, by decide,
      fun hcon => by rw [h2] at hcon; exact absurd (by decide) hcon,
      derive_ok envFilter _ (by decide)⟩
  · exact ⟨by decide, by decide,
      fun hcon => by rw [h3] at hcon; exact absurd (by decide) hcon,
      derive_ok envFilter _ (by decide)⟩
  · exact ⟨by decide, by decide,
      fun hcon => by rw [h4] at hcon; exact absurd (by decide) hcon,
      derive_ok envFilter _ (by decide)⟩
  · exact ⟨by decide, by decide, fun _ => rfl,
      derive_ok envFilter _ (by decide)⟩
  · exact ⟨by decide, by decide, fun _ => rfl, derive_ok envFilter _ (by decide)⟩

/-- Witness for `flag_reader_total_safety` at a concrete unrecognized input. -/
theorem flag_reader_total_safety_witness :
    get_mail_message_flag (some "BOGUS".data) = (MailFlag.seen, true)
      ∧ ∃ fc, get_imap_filter none (get_mail_message_flag (some "BOGUS".data)) = .ok fc := by
  have h := flag_reader_total_safety (some "BOGUS".data) none
  exact ⟨h.2.2.1 (by decide), h.2.2.2⟩

/-- C2 (amended): for an OSError raised by the engine, render raises a
recoverable EmailProcessingError carrying the original message and the
titleHint when the message contains a known content substring, and
re-raises the OSError unchanged otherwise; a non-OSError engine exception
is re-raised unchanged regardless of its message. -/
theorem render_error_classification (output_directory content filename m m2 : Str)
    (e2 : PyError)
    (hmatch : PDF_CONTENT_ERRORS.any (fun err => containsSub m err) = true)
    (hnomatch : PDF_CONTENT_ERRORS.any (fun err => containsSub m2 err) = false)
    (hnotOs : ∀ mm, e2 ≠ .osError mm) :
    html_to_pdf output_directory (fun _ => some (.osError m)) content filename
        = .emailProcessingError ("Error generating PDF for '".data ++ filename
            ++ "'.  Likely content issue: ".data ++ m)
      ∧ html_to_pdf output_directory (fun _ => some (.osError m2)) content filename
          = .raised (.osError m2)
      ∧ html_to_pdf output_directory (fun _ => some e2) content filename = .raised e2 := by
  refine ⟨by simp [html_to_pdf, hmatch], by simp [html_to_pdf, hnomatch], ?_⟩
  cases e2 with
  | osError mm => exact absurd rfl (hnotOs mm)
  | otherError mm => simp [html_to_pdf]

/-- C2 as frozen is false on the code: a non-OSError engine exception whose
message contains the recognized substring "ContentNotFoundError" is
re-raised unchanged instead of being wrapped as a recoverable error. -/
theorem render_classification_counterexample :
    PDF_CONTENT_ERRORS.any (fun err => containsSub "ContentNotFoundError".data err) = true
      ∧ html_to_pdf "/tmp".data (fun _ => some (.otherError "ContentNotFoundError".data)) [] []
          = .raised (.otherError "ContentNotFoundError".data)
      ∧ ∀ msg, RenderResult.raised (.otherError "ContentNotFoundError".data)
          ≠ .emailProcessingError msg := by
  exact ⟨by decide, by rfl, fun msg h => RenderResult.noConfusion h⟩

/-- Witness for `render_error_classification` at concrete inputs. -/
theorem render_error_classification_witness :
    html_to_pdf "/tmp".data (fun _ => some (.osError "xConnectionRefusedError".data)) [] ['t']
        = .emailProcessingError ("Error generating PDF for '".data ++ ['t']
            ++ "'.  Likely content issue: ".data ++ "xConnectionRefusedError".data)
      ∧ html_to_pdf "/tmp".data (fun _ => some (.osError "zzz".data)) [] ['t']
          = .raised (.osError "zzz".data) := by
  have h := render_error_classification "/tmp".data [] ['t'] "xConnectionRefusedError".data
      "zzz".data (.otherError "q".data) (by decide) (by decide)
      (fun mm h => PyError.noConfusion h)
  exact ⟨h.1, h.2.1⟩

/-- C9: the substring classification applies only to OSError: a non-OSError
engine exception propagates out of render unchanged even when its message
contains a recognized content substring, while an OSError with the very
same message is not propagated (it is wrapped as recoverable). -/
theorem oserror_only_classification (output_directory content filename m : Str)
    (hmatch : PDF_CONTENT_ERRORS.any (fun err => containsSub m err) = true) :
    html_to_pdf output_directory (fun _ => some (.otherError m)) content filename
        = .raised (.otherError m)
      ∧ html_to_pdf output_directory (fun _ => some (.osError m)) content filename
          ≠ .raised (.osError m) := by
  refine ⟨by simp [html_to_pdf], ?_⟩
  simp [html_to_pdf, hmatch]

/-- Witness for `oserror_only_classification` at a concrete input. -/
theorem oserror_only_classification_witness :
    html_to_pdf "/tmp".data (fun _ => some (.otherError "UnknownContentError".data)) [] []
        = .raised (.otherError "UnknownContentError".data) := by
  exact (oserror_only_classification "/tmp".data [] [] "UnknownContentError".data (by decide)).1

/-- C5: the render payload is the UTF-8 meta tag prepended to the HTML body
when the HTML body is non-empty after stripping (so it begins with the meta
tag), and is exactly the plain-text body otherwise. -/
theorem payload_rule (msg : Msg) :
    (pyStrip msg.html ≠ [] →
        pdf_content msg = META_TAG ++ msg.html ∧ META_TAG <+: pdf_content msg)
      ∧ (pyStrip msg.html = [] → pdf_content msg = msg.text) := by
  constructor
  · intro h
    exact ⟨by simp [pdf_content, h], by simp [pdf_content, h, List.prefix_append]⟩
  · intro h
    simp [pdf_content, h]

/-- Witness for `payload_rule` on an HTML message and a text-only message. -/
theorem payload_rule_witness :
    pdf_content egMsgHtml = META_TAG ++ egMsgHtml.html
      ∧ pdf_content egMsgRec = egMsgRec.text := by
  exact ⟨((payload_rule egMsgHtml).1 (by decide)).1, (payload_rule egMsgRec).2 (by decide)⟩

/-- C6: a successful render writes to the configured output directory
joined with the sanitized titleHint truncated to at most 50 characters plus
the .pdf suffix; the path depends only on the titleHint and the
configuration, so two subjects with equal sanitizations yield the same path
(silent overwrite, no uniqueness guarantee). -/
theorem output_path_rule (output_directory : Str) (engine : Str → Option PyError)
    (content filename s1 s2 : Str)
    (hok : engine content = none)
    (hsan : sanitize_filename s1 = sanitize_filename s2) :
    html_to_pdf output_directory engine content filename
        = .ok (output_path output_directory filename)
      ∧ output_path output_directory filename
          = output_directory ++ "/".data ++ (sanitize_filename filename).take 50 ++ ".pdf".data
      ∧ ((sanitize_filename filename).take 50).length ≤ 50
      ∧ output_path output_directory s1 = output_path output_directory s2 := by
  refine ⟨by simp [html_to_pdf, hok], rfl, ?_, by simp [output_path, hsan]⟩
  exact List.length_take_le 50 (sanitize_filename filename)

/-- Witness for `output_path_rule`: colliding sanitized subjects. -/
theorem output_path_rule_witness :
    html_to_pdf egOutDir egEngine "X".data "a:b".data
        = .ok (output_path egOutDir "a:b".data)
      ∧ output_path egOutDir "a:b".data = output_path egOutDir "a_b".data := by
  have h := output_path_rule egOutDir egEngine "X".data "a:b".data "a:b".data "a_b".data
      (by decide) (by decide)
  exact ⟨h.1, h.2.2.2⟩

/-- C4: a message with one or more attachments is skipped entirely: the
loop body leaves the state unchanged whatever the renderer and move oracles
do (so the message is never rendered, flagged or moved), and the batch
continues with the remaining messages. -/
theorem attachments_skip (output_directory : Str) (mail_msg_flag : MailFlag × Bool)
    (target_folder : Str) (engine : Str → Option PyError) (moveOk : Msg → Bool)
    (m : Msg) (st : MailState) (h : m.attachments ≠ 0) :
    process_one output_directory mail_msg_flag target_folder engine moveOk m st = .next st
      ∧ (∀ engine2 moveOk2,
          process_one output_directory mail_msg_flag target_folder engine2 moveOk2 m st = .next st)
      ∧ (∀ rest,
          process_email output_directory mail_msg_flag target_folder engine moveOk (m :: rest) st
            = process_email output_directory mail_msg_flag target_folder engine moveOk rest st) := by
  refine ⟨by simp [process_one, h], fun engine2 moveOk2 => by simp [process_one, h], ?_⟩
  intro rest
  simp [process_email, process_email_loop, process_one, h]

/-- Witness for `attachments_skip` on a message with one attachment. -/
theorem attachments_skip_witness :
    process_one egOutDir egFlagDir egTarget egEngine egMoveOk egMsgAtt egState
      = .next egState := by
  exact (attachments_skip egOutDir egFlagDir egTarget egEngine egMoveOk egMsgAtt egState
    (by decide)).1

/-- C1: in the batch loop, a recoverable content-render failure on a
message leaves that message neither flagged nor moved and the batch
continues with the next message; a fatal step (a re-raised render exception
or a failed move) terminates the run with an error: the result does not
depend on the not-yet-reached messages, all previously recorded flag/move
effects are preserved, and the aborting message contributes at most its own
flag entry and no move. -/
theorem batch_error_propagation (output_directory : Str) (mail_msg_flag : MailFlag × Bool)
    (target_folder : Str) (engine : Str → Option PyError) (moveOk : Msg → Bool)
    (m mf : Msg) (st : MailState)
    (hrec : step_recoverable output_directory engine m = true)
    (hfat : step_fatal output_directory engine moveOk mf = true) :
    process_one output_directory mail_msg_flag target_folder engine moveOk m st = .next st
      ∧ (∀ rest,
          process_email output_directory mail_msg_flag target_folder engine moveOk (m :: rest) st
            = process_email output_directory mail_msg_flag target_folder engine moveOk rest st)
      ∧ (∀ rest,
          process_email output_directory mail_msg_flag target_folder engine moveOk (mf :: rest) st
            = process_email output_directory mail_msg_flag target_folder engine moveOk [mf] st)
      ∧ (process_email output_directory mail_msg_flag target_folder engine moveOk [mf] st).2.isSome
          = true
      ∧ st.flagged <+:
          (process_email output_directory mail_msg_flag target_folder engine moveOk [mf] st).1.flagged
      ∧ (process_email output_directory mail_msg_flag target_folder engine moveOk [mf] st).1.moved
          = st.moved
      ∧ ((process_email output_directory mail_msg_flag target_folder engine moveOk [mf] st).1.flagged
            = st.flagged
          ∨ (process_email output_directory mail_msg_flag target_folder engine moveOk [mf] st).1.flagged
              = st.flagged ++ [(mf.uid, mail_msg_flag.1, mail_msg_flag.2)]) := by
  rw [step_recoverable, Bool.and_eq_true, beq_iff_eq] at hrec
  rw [step_fatal, Bool.and_eq_true, beq_iff_eq] at hfat
  obtain ⟨hattm, hmatchm⟩ := hrec
  obtain ⟨hattf, hmatchf⟩ := hfat
  have hone : process_one output_directory mail_msg_flag target_folder engine moveOk m st
      = .next st := by
    rcases hr : html_to_pdf output_directory engine (pdf_content m) m.subject with p | ms | e
    · rw [hr] at hmatchm; simp at hmatchm
    · simp [process_one, hattm, hr]
    · rw [hr] at hmatchm; simp at hmatchm
  have hloop : ∀ rest,
      process_email output_directory mail_msg_flag target_folder engine moveOk (m :: rest) st
        = process_email output_directory mail_msg_flag target_folder engine moveOk rest st := by
    intro rest
    simp [process_email, process_email_loop, hone]
  rcases hr : html_to_pdf output_directory engine (pdf_content mf) mf.subject with p | ms | e
  · rw [hr] at hmatchf
    have hmv : moveOk mf = false := by simpa using hmatchf
    refine ⟨hone, hloop, ?_, ?_, ?_, ?_, ?_⟩
    · intro rest
      simp [process_email, process_email_loop, process_one, hattf, hr, hmv, mailflag_mem_all]
    · simp [process_email, process_email_loop, process_one, hattf, hr, hmv, mailflag_mem_all]
    · simp [process_email, process_email_loop, process_one, hattf, hr, hmv, mailflag_mem_all,
        List.prefix_append]
    · simp [process_email, process_email_loop, process_one, hattf, hr, hmv, mailflag_mem_all]
    · simp [process_email, process_email_loop, process_one, hattf, hr, hmv, mailflag_mem_all]
  · rw [hr] at hmatchf; simp at hmatchf
  · refine ⟨hone, hloop, ?_, ?_, ?_, ?_, ?_⟩
    · intro rest
      simp [process_email, process_email_loop, process_one, hattf, hr]
    · simp [process_email, process_email_loop, process_one, hattf, hr]
    · simp [process_email, process_email_loop, process_one, hattf, hr]
    · simp [process_email, process_email_loop, process_one, hattf, hr]
    · simp [process_email, process_email_loop, process_one, hattf, hr]

/-- Witness for `batch_error_propagation`: a concrete recoverable message
is skipped with the run continuing, a concrete fatal message makes the run
return an error. -/
theorem batch_error_propagation_witness :
    process_email egOutDir egFlagDir egTarget egEngine egMoveOk [egMsgRec] egState
        = process_email egOutDir egFlagDir egTarget egEngine egMoveOk [] egState
      ∧ (process_email egOutDir egFlagDir egTarget egEngine egMoveOk [egMsgFat] egState).2.isSome
          = true := by
  have h := batch_error_propagation egOutDir egFlagDir egTarget egEngine egMoveOk
      egMsgRec egMsgFat egState (by decide) (by decide)
  exact ⟨h.2.1 [], h.2.2.2.1⟩
